import Mathlib

/-!
Shallow embedding of the microsandbox Python SDK client core
(src/sdk/python/microsandbox: base_sandbox.py, command.py, metrics.py,
python_sandbox.py).

The SDK methods are async functions that mutate `self._is_started`, POST one
JSON-RPC envelope to the server, and raise Python exceptions on failure.  We
embed each method as a pure function from the sandbox state and the outcome of
the single HTTP POST it performs to a result record carrying: the list of RPC
calls actually issued, the warnings emitted, the new value of the started flag,
and the method outcome (`Except` of a Python-exception value).  JSON values are
modelled with a `Json` inductive whose numbers are rationals; a Python `dict`
body is a `Json.obj`.  Request ids (`uuid.uuid4()`) are nondeterministic in the
source and are passed in as a parameter.
-/

/-- JSON values, as decoded by `response.json()`.  Python `None` is `null`. -/
inductive Json where
  | null : Json
  | bool : Bool → Json
  | num : Rat → Json
  | str : String → Json
  | arr : List Json → Json
  | obj : List (String × Json) → Json

/-- `d[key]`-style lookup on a JSON object; `none` on a non-object or a
missing key.  Python dicts have unique keys, so first-match lookup is exact. -/
def Json.lookup (j : Json) (key : String) : Option Json :=
  match j with
  | Json.obj fields => List.lookup key fields
  | _ => none

/-- Python `key in d`: key presence, true even when the value is `None`. -/
def Json.member (j : Json) (key : String) : Bool :=
  (j.lookup key).isSome

/-- Python `d.get(key, default)`. -/
def Json.getD (j : Json) (key : String) (dflt : Json) : Json :=
  (j.lookup key).getD dflt

/-- Rendering of a JSON value into a Python f-string slot (models `str(x)`
for the value shapes the protocol produces; only `str` payloads occur in the
claims). -/
def Json.pyStr : Json → String
  | Json.null => "None"
  | Json.bool true => "True"
  | Json.bool false => "False"
  | Json.str s => s
  | Json.num q => toString q
  | Json.arr _ => "[...]"
  | Json.obj _ => "dict"

/-- Does `rest` start with the run `pat`?  (char-by-char, on lists). -/
def charsLead : List Char → List Char → Bool
  | [], _ => true
  | _ :: _, [] => false
  | a :: as, b :: bs => (a == b) && charsLead as bs

/-- Does the haystack contain `needle` as a contiguous run? -/
def charsHave (needle : List Char) : List Char → Bool
  | [] => charsLead needle []
  | b :: bs => charsLead needle (b :: bs) || charsHave needle bs

/-- Python `needle in haystack` for strings (substring containment). -/
def pyContains (haystack needle : String) : Bool :=
  charsHave needle.toList haystack.toList

/-- The Python exceptions the client code can let escape to the caller.
`runtimeError` covers the `RuntimeError(...)` raises (the spec's
NotStartedError / CommunicationError / ServerError all map to it in the code);
`timeoutError` is the builtin `TimeoutError` — on CPython ≥ 3.11
`asyncio.TimeoutError` is an alias of it, so an `asyncio.TimeoutError` that
escapes uncaught is also `timeoutError`; `clientError` is a raw
`aiohttp.ClientError` (never escapes: every call site catches it). -/
inductive PyExc where
  | runtimeError : String → PyExc
  | timeoutError : String → PyExc
  | clientError : String → PyExc
  deriving DecidableEq

/-- Python `str(e)` on an exception: its message. -/
def PyExc.pyStr : PyExc → String
  | PyExc.runtimeError m => m
  | PyExc.timeoutError m => m
  | PyExc.clientError m => m

/-- Outcome of one `session.post(...)` exchange.
`resp status text body` is an HTTP response: `status` is the code, `text` is
`await response.text()`, `body` is `await response.json()` (the model assumes
the 200-path body parses; a parse failure is an `aiohttp` error and can be
represented by `clientErr`).
`clientErr isTimeout msg` is an `aiohttp.ClientError` raised by the exchange;
`isTimeout` records whether the exception is also an `asyncio.TimeoutError`
(e.g. `aiohttp.ServerTimeoutError`, which inherits both).
`asyncTimeout msg` is a bare `asyncio.TimeoutError` raised when the client-side
`ClientTimeout` budget elapses; it is NOT an `aiohttp.ClientError`, so an
`except aiohttp.ClientError` clause does not catch it. -/
inductive HttpOutcome where
  | resp : Nat → String → Json → HttpOutcome
  | clientErr : Bool → String → HttpOutcome
  | asyncTimeout : String → HttpOutcome

/-- One HTTP POST issued by the client: endpoint, JSON-RPC payload, headers,
and the explicit per-call client timeout budget if one was passed
(`aiohttp.ClientTimeout(total=...)`; only `start` passes one). -/
structure RpcCall where
  url : String
  payload : Json
  headers : List (String × String)
  timeoutBudget : Option Rat

/-- The per-instance fields of `BaseSandbox.__init__` that the methods read:
`_server_url`, `_namespace`, `_name`, `_api_key`, `_is_started`.
(`_session` is the transport resource; its lifetime is modelled in
`BaseSandbox.create`.) -/
structure SandboxState where
  serverUrl : String
  ns : String
  name : String
  apiKey : Option String
  isStarted : Bool

/-- Header construction shared by every method: `Content-Type` always,
`Authorization: Bearer <key>` only when an API key is configured. -/
def buildHeaders (apiKey : Option String) : List (String × String) :=
  match apiKey with
  | some key =>
      [("Content-Type", "application/json"),
       ("Authorization", "Bearer " ++ key)]
  | none => [("Content-Type", "application/json")]

/-- `response_data['error']['message']` as interpolated into the failure
f-string (the guard `"error" in response_data` has already passed). -/
def errMessage (body : Json) : String :=
  ((((body.lookup "error").getD Json.null).lookup "message").getD Json.null).pyStr

/-- Result of `BaseSandbox.start`: RPC calls issued, warnings emitted via
`warnings.warn`, the raised exception if any, and the final `_is_started`. -/
structure StartResult where
  calls : List RpcCall
  warnings : List String
  outcome : Except PyExc Unit
  finalStarted : Bool

/-- `BaseSandbox.start(image, memory, cpus, timeout)`.
`image.getD defaultImage` models `image or await self.get_default_image()`;
`reqId` models `str(uuid.uuid4())`; `net` is the outcome of the single POST.
The `except aiohttp.ClientError` clause converts a caught error that is also an
`asyncio.TimeoutError` into `TimeoutError(...)` and any other `ClientError`
into `RuntimeError("Failed to communicate ...")`; a bare
`asyncio.TimeoutError` from the elapsed `ClientTimeout(total=timeout+30)` is
not a `ClientError` and escapes uncaught (= builtin `TimeoutError` on
CPython ≥ 3.11). -/
def BaseSandbox.start (st : SandboxState) (image : Option String)
    (defaultImage : String) (memory : Int) (cpus : Rat) (timeout : Rat)
    (reqId : String) (net : HttpOutcome) : StartResult :=
  if st.isStarted then
    { calls := [], warnings := [], outcome := Except.ok (),
      finalStarted := st.isStarted }
  else
    let sandboxImage := image.getD defaultImage
    let requestData := Json.obj
      [ ("jsonrpc", Json.str "2.0"),
        ("method", Json.str "sandbox.start"),
        ("params", Json.obj
          [ ("namespace", Json.str st.ns),
            ("sandbox", Json.str st.name),
            ("config", Json.obj
              [ ("image", Json.str sandboxImage),
                ("memory", Json.num memory),
                ("cpus", Json.num cpus) ]) ]),
        ("id", Json.str reqId) ]
    let call : RpcCall :=
      { url := st.serverUrl ++ "/api/v1/rpc", payload := requestData,
        headers := buildHeaders st.apiKey,
        timeoutBudget := some (timeout + 30) }
    match net with
    | HttpOutcome.resp status text body =>
      if status ≠ 200 then
        { calls := [call], warnings := [],
          outcome := Except.error
            (PyExc.runtimeError ("Failed to start sandbox: " ++ text)),
          finalStarted := st.isStarted }
      else if body.member "error" then
        { calls := [call], warnings := [],
          outcome := Except.error
            (PyExc.runtimeError ("Failed to start sandbox: " ++ errMessage body)),
          finalStarted := st.isStarted }
      else
        let result := body.getD "result" (Json.str "")
        let warns :=
          match result with
          | Json.str s =>
            if pyContains s "timed out waiting" then
              ["Sandbox start warning: " ++ s]
            else []
          | _ => []
        { calls := [call], warnings := warns, outcome := Except.ok (),
          finalStarted := true }
    | HttpOutcome.clientErr isTmo msg =>
      if isTmo then
        { calls := [call], warnings := [],
          outcome := Except.error
            (PyExc.timeoutError
              ("Timed out waiting for sandbox to start after "
                ++ toString timeout ++ " seconds")),
          finalStarted := st.isStarted }
      else
        { calls := [call], warnings := [],
          outcome := Except.error
            (PyExc.runtimeError
              ("Failed to communicate with Microsandbox server: " ++ msg)),
          finalStarted := st.isStarted }
    | HttpOutcome.asyncTimeout msg =>
      { calls := [call], warnings := [],
        outcome := Except.error (PyExc.timeoutError msg),
        finalStarted := st.isStarted }

/-- Result of `BaseSandbox.stop`. -/
structure StopResult where
  calls : List RpcCall
  outcome : Except PyExc Unit
  finalStarted : Bool

/-- `BaseSandbox.stop()`.  No explicit timeout is passed to the POST; the
`except aiohttp.ClientError` clause wraps caught transport errors into
`RuntimeError`; a bare `asyncio.TimeoutError` (session default budget) would
escape uncaught. -/
def BaseSandbox.stop (st : SandboxState) (reqId : String)
    (net : HttpOutcome) : StopResult :=
  if !st.isStarted then
    { calls := [], outcome := Except.ok (), finalStarted := st.isStarted }
  else
    let requestData := Json.obj
      [ ("jsonrpc", Json.str "2.0"),
        ("method", Json.str "sandbox.stop"),
        ("params", Json.obj
          [ ("namespace", Json.str st.ns),
            ("sandbox", Json.str st.name) ]),
        ("id", Json.str reqId) ]
    let call : RpcCall :=
      { url := st.serverUrl ++ "/api/v1/rpc", payload := requestData,
        headers := buildHeaders st.apiKey, timeoutBudget := none }
    match net with
    | HttpOutcome.resp status text body =>
      if status ≠ 200 then
        { calls := [call],
          outcome := Except.error
            (PyExc.runtimeError ("Failed to stop sandbox: " ++ text)),
          finalStarted := st.isStarted }
      else if body.member "error" then
        { calls := [call],
          outcome := Except.error
            (PyExc.runtimeError ("Failed to stop sandbox: " ++ errMessage body)),
          finalStarted := st.isStarted }
      else
        { calls := [call], outcome := Except.ok (), finalStarted := false }
    | HttpOutcome.clientErr _ msg =>
      { calls := [call],
        outcome := Except.error
          (PyExc.runtimeError
            ("Failed to communicate with Microsandbox server: " ++ msg)),
        finalStarted := st.isStarted }
    | HttpOutcome.asyncTimeout msg =>
      { calls := [call],
        outcome := Except.error (PyExc.timeoutError msg),
        finalStarted := st.isStarted }

/-- Result of an operational call (`Command.run`, `Metrics._get_metrics`,
`PythonSandbox.run`): the calls issued and the outcome, whose success value is
the JSON handed to the result object (`CommandExecution(output_data=result)` /
the snapshot dict / `Execution(output_data=result)`). -/
structure OpResult where
  calls : List RpcCall
  outcome : Except PyExc Json

/-- `Command.run(command, args, timeout)` from command.py.  The gating check
`if not self._sandbox._is_started` raises before any request is built.
`params["timeout"]` is added only when a timeout was supplied.  On a 200 body
the result is `response_data.get("result", {})`.  The
`except aiohttp.ClientError` clause wraps caught transport errors; a bare
`asyncio.TimeoutError` escapes uncaught. -/
def Command.run (st : SandboxState) (command : String) (args : List String)
    (timeout : Option Int) (reqId : String) (net : HttpOutcome) : OpResult :=
  if !st.isStarted then
    { calls := [],
      outcome := Except.error
        (PyExc.runtimeError "Sandbox is not started. Call start() first.") }
  else
    let baseParams :=
      [ ("sandbox", Json.str st.name),
        ("command", Json.str command),
        ("args", Json.arr (args.map Json.str)) ]
    let params :=
      match timeout with
      | some t => baseParams ++ [("timeout", Json.num t)]
      | none => baseParams
    let requestData := Json.obj
      [ ("jsonrpc", Json.str "2.0"),
        ("method", Json.str "sandbox.command.run"),
        ("params", Json.obj params),
        ("id", Json.str reqId) ]
    let call : RpcCall :=
      { url := st.serverUrl ++ "/api/v1/rpc", payload := requestData,
        headers := buildHeaders st.apiKey, timeoutBudget := none }
    match net with
    | HttpOutcome.resp status text body =>
      if status ≠ 200 then
        { calls := [call],
          outcome := Except.error
            (PyExc.runtimeError ("Failed to execute command: " ++ text)) }
      else if body.member "error" then
        { calls := [call],
          outcome := Except.error
            (PyExc.runtimeError
              ("Failed to execute command: " ++ errMessage body)) }
      else
        { calls := [call], outcome := Except.ok (body.getD "result" (Json.obj [])) }
    | HttpOutcome.clientErr _ msg =>
      { calls := [call],
        outcome := Except.error
          (PyExc.runtimeError ("Failed to execute command: " ++ msg)) }
    | HttpOutcome.asyncTimeout msg =>
      { calls := [call], outcome := Except.error (PyExc.timeoutError msg) }

/-- `PythonSandbox.run(code)` from python_sandbox.py: method
`sandbox.repl.run`, params `{sandbox, language: "python", code}`; otherwise the
same shape as `Command.run` with messages "Failed to execute code: ...". -/
def PythonSandbox.run (st : SandboxState) (code : String) (reqId : String)
    (net : HttpOutcome) : OpResult :=
  if !st.isStarted then
    { calls := [],
      outcome := Except.error
        (PyExc.runtimeError "Sandbox is not started. Call start() first.") }
  else
    let requestData := Json.obj
      [ ("jsonrpc", Json.str "2.0"),
        ("method", Json.str "sandbox.repl.run"),
        ("params", Json.obj
          [ ("sandbox", Json.str st.name),
            ("language", Json.str "python"),
            ("code", Json.str code) ]),
        ("id", Json.str reqId) ]
    let call : RpcCall :=
      { url := st.serverUrl ++ "/api/v1/rpc", payload := requestData,
        headers := buildHeaders st.apiKey, timeoutBudget := none }
    match net with
    | HttpOutcome.resp status text body =>
      if status ≠ 200 then
        { calls := [call],
          outcome := Except.error
            (PyExc.runtimeError ("Failed to execute code: " ++ text)) }
      else if body.member "error" then
        { calls := [call],
          outcome := Except.error
            (PyExc.runtimeError ("Failed to execute code: " ++ errMessage body)) }
      else
        { calls := [call], outcome := Except.ok (body.getD "result" (Json.obj [])) }
    | HttpOutcome.clientErr _ msg =>
      { calls := [call],
        outcome := Except.error
          (PyExc.runtimeError ("Failed to execute code: " ++ msg)) }
    | HttpOutcome.asyncTimeout msg =>
      { calls := [call], outcome := Except.error (PyExc.timeoutError msg) }

/-- `result.get("sandboxes", [])` restricted to the array shapes the protocol
produces: the element list when the value is a JSON array, `[]` when the key is
absent. -/
def sandboxesOf (result : Json) : List Json :=
  match result.lookup "sandboxes" with
  | some (Json.arr l) => l
  | _ => []

/-- `Metrics._get_metrics()` from metrics.py.  The gating check runs before the
`try`.  Inside the `try`, non-200 and `"error"` bodies raise `RuntimeError`;
otherwise `result = response_data.get("result", {})`,
`sandboxes = result.get("sandboxes", [])`, an empty list returns `{}`, a
non-empty list returns `sandboxes[0]` (the code takes the FIRST entry — it does
not search by name).  The trailing `except Exception` clause catches EVERY
exception raised inside the `try` — including the client code's own
`RuntimeError`s and any `asyncio.TimeoutError` — and re-raises it as
`RuntimeError("Failed to get sandbox metrics: " + str(e))`. -/
def Metrics.getMetrics (st : SandboxState) (reqId : String)
    (net : HttpOutcome) : OpResult :=
  if !st.isStarted then
    { calls := [],
      outcome := Except.error
        (PyExc.runtimeError "Sandbox is not started. Call start() first.") }
  else
    let requestData := Json.obj
      [ ("jsonrpc", Json.str "2.0"),
        ("method", Json.str "sandbox.metrics.get"),
        ("params", Json.obj [("sandbox", Json.str st.name)]),
        ("id", Json.str reqId) ]
    let call : RpcCall :=
      { url := st.serverUrl ++ "/api/v1/rpc", payload := requestData,
        headers := buildHeaders st.apiKey, timeoutBudget := none }
    let inner : Except PyExc Json :=
      match net with
      | HttpOutcome.resp status text body =>
        if status ≠ 200 then
          Except.error
            (PyExc.runtimeError ("Failed to get sandbox metrics: " ++ text))
        else if body.member "error" then
          Except.error
            (PyExc.runtimeError
              ("Failed to get sandbox metrics: " ++ errMessage body))
        else
          let result := body.getD "result" (Json.obj [])
          match sandboxesOf result with
          | [] => Except.ok (Json.obj [])
          | x :: _ => Except.ok x
      | HttpOutcome.clientErr _ msg => Except.error (PyExc.clientError msg)
      | HttpOutcome.asyncTimeout msg => Except.error (PyExc.timeoutError msg)
    match inner with
    | Except.ok v => { calls := [call], outcome := Except.ok v }
    | Except.error e =>
      { calls := [call],
        outcome := Except.error
          (PyExc.runtimeError ("Failed to get sandbox metrics: " ++ e.pyStr)) }

/-- `metrics.get("cpu_usage")` on a fetched snapshot (`Metrics.cpu`): `None`
when the key is absent, the stored value (possibly JSON `null`) otherwise —
Python returns the same `None` for both, which `Json.null` represents. -/
def Metrics.cpuOf (metrics : Json) : Json :=
  (metrics.lookup "cpu_usage").getD Json.null

/-- `metrics.get("memory_usage")` on a fetched snapshot (`Metrics.memory`). -/
def Metrics.memoryOf (metrics : Json) : Json :=
  (metrics.lookup "memory_usage").getD Json.null

/-- `metrics.get("disk_usage")` on a fetched snapshot (`Metrics.disk`). -/
def Metrics.diskOf (metrics : Json) : Json :=
  (metrics.lookup "disk_usage").getD Json.null

/-- `metrics.get("running", False)` on a fetched snapshot
(`Metrics.is_running`). -/
def Metrics.isRunningOf (metrics : Json) : Json :=
  (metrics.lookup "running").getD (Json.bool false)

/-- `Metrics.cpu()`: re-fetch then project `cpu_usage`. -/
def Metrics.cpu (st : SandboxState) (reqId : String) (net : HttpOutcome) :
    OpResult :=
  let r := Metrics.getMetrics st reqId net
  { r with outcome := r.outcome.map Metrics.cpuOf }

/-- `Metrics.memory()`: re-fetch then project `memory_usage`. -/
def Metrics.memory (st : SandboxState) (reqId : String) (net : HttpOutcome) :
    OpResult :=
  let r := Metrics.getMetrics st reqId net
  { r with outcome := r.outcome.map Metrics.memoryOf }

/-- `Metrics.disk()`: re-fetch then project `disk_usage`. -/
def Metrics.disk (st : SandboxState) (reqId : String) (net : HttpOutcome) :
    OpResult :=
  let r := Metrics.getMetrics st reqId net
  { r with outcome := r.outcome.map Metrics.diskOf }

/-- `Metrics.is_running()`: re-fetch then project `running` with default
`False`. -/
def Metrics.isRunning (st : SandboxState) (reqId : String) (net : HttpOutcome) :
    OpResult :=
  let r := Metrics.getMetrics st reqId net
  { r with outcome := r.outcome.map Metrics.isRunningOf }

/-- Observable trace of one `BaseSandbox.create(...)` scope: the start and
stop results, whether `stop` was invoked in the `finally` block, whether
`session.close()` ran, and the exception (if any) that propagates out of the
scope. -/
structure ScopeResult where
  startResult : StartResult
  stopResult : StopResult
  stopCalled : Bool
  sessionClosed : Bool
  outcome : Except PyExc Unit

/-- `BaseSandbox.create(...)` from base_sandbox.py, as an async context
manager.  Its body is

  try:     open session; await start(...); yield
  finally: await stop(); if session: await close(); session = None

`bodyOutcome` is what the code inside the caller's `async with` scope does
(`.ok ()` for a normal exit, `.error e` when it raises).  Python `finally`
semantics: `stop()` always runs; if `stop()` raises, that exception replaces
any in-flight exception AND control leaves the `finally` block at once, so
`session.close()` is skipped; if `stop()` returns, the session is closed and
the in-flight exception (start failure or body failure), if any, propagates. -/
def BaseSandbox.create (serverUrl ns name : String) (apiKey : Option String)
    (defaultImage : String) (memory : Int) (cpus : Rat) (timeout : Rat)
    (startReqId stopReqId : String) (startNet : HttpOutcome)
    (bodyOutcome : Except PyExc Unit) (stopNet : HttpOutcome) : ScopeResult :=
  let st0 : SandboxState :=
    { serverUrl := serverUrl, ns := ns, name := name, apiKey := apiKey,
      isStarted := false }
  let s := BaseSandbox.start st0 none defaultImage memory cpus timeout
    startReqId startNet
  let primary : Except PyExc Unit :=
    match s.outcome with
    | Except.error e => Except.error e
    | Except.ok _ => bodyOutcome
  let st1 := { st0 with isStarted := s.finalStarted }
  let stopRes := BaseSandbox.stop st1 stopReqId stopNet
  match stopRes.outcome with
  | Except.error e2 =>
    { startResult := s, stopResult := stopRes, stopCalled := true,
      sessionClosed := false, outcome := Except.error e2 }
  | Except.ok _ =>
    { startResult := s, stopResult := stopRes, stopCalled := true,
      sessionClosed := true, outcome := primary }

/-- C1: `start` on an already-`Started` instance returns immediately: no RPC
call, no warning, no error, and the started flag (the only mutable instance
state) is unchanged; `stop` on a `NotStarted` instance likewise issues no RPC
call and succeeds without touching the flag. -/
theorem start_stop_fixedpoint_noop :
    (∀ (st : SandboxState) (image : Option String) (defaultImage : String)
       (memory : Int) (cpus timeout : Rat) (reqId : String) (net : HttpOutcome),
       st.isStarted = true →
       BaseSandbox.start st image defaultImage memory cpus timeout reqId net =
         { calls := [], warnings := [], outcome := Except.ok (),
           finalStarted := st.isStarted }) ∧
    (∀ (st : SandboxState) (reqId : String) (net : HttpOutcome),
       st.isStarted = false →
       BaseSandbox.stop st reqId net =
         { calls := [], outcome := Except.ok (),
           finalStarted := st.isStarted }) := by
  constructor
  · intro st image defaultImage memory cpus timeout reqId net h
    simp [BaseSandbox.start, h]
  · intro st reqId net h
    simp [BaseSandbox.stop, h]

/-- Witness for C1 at concrete inputs. -/
theorem start_stop_fixedpoint_noop_witness :
    BaseSandbox.start
      { serverUrl := "http://127.0.0.1:5555", ns := "default", name := "sb",
        apiKey := none, isStarted := true }
      none "microsandbox/python" 512 1 180 "rid" (HttpOutcome.asyncTimeout "t")
      = { calls := [], warnings := [], outcome := Except.ok (),
          finalStarted := true } ∧
    BaseSandbox.stop
      { serverUrl := "http://127.0.0.1:5555", ns := "default", name := "sb",
        apiKey := none, isStarted := false }
      "rid" (HttpOutcome.asyncTimeout "t")
      = { calls := [], outcome := Except.ok (), finalStarted := false } :=
  ⟨start_stop_fixedpoint_noop.1 _ _ _ _ _ _ _ _ rfl,
   start_stop_fixedpoint_noop.2 _ _ _ rfl⟩

/-- C2: each operational call (command run, metrics fetch, code run) invoked
while `NotStarted` raises the not-started `RuntimeError` with zero RPC calls
issued: the gate fires before any request is built. -/
theorem operational_calls_gated_when_not_started :
    ∀ (st : SandboxState), st.isStarted = false →
      (∀ (command : String) (args : List String) (timeout : Option Int)
         (reqId : String) (net : HttpOutcome),
         Command.run st command args timeout reqId net =
           { calls := [],
             outcome := Except.error (PyExc.runtimeError
               "Sandbox is not started. Call start() first.") }) ∧
      (∀ (reqId : String) (net : HttpOutcome),
         Metrics.getMetrics st reqId net =
           { calls := [],
             outcome := Except.error (PyExc.runtimeError
               "Sandbox is not started. Call start() first.") }) ∧
      (∀ (code reqId : String) (net : HttpOutcome),
         PythonSandbox.run st code reqId net =
           { calls := [],
             outcome := Except.error (PyExc.runtimeError
               "Sandbox is not started. Call start() first.") }) := by
  intro st h
  refine ⟨?_, ?_, ?_⟩
  · intro command args timeout reqId net
    simp [Command.run, h]
  · intro reqId net
    simp [Metrics.getMetrics, h]
  · intro code reqId net
    simp [PythonSandbox.run, h]

/-- Witness for C2 at concrete inputs. -/
theorem operational_calls_gated_when_not_started_witness :
    (Command.run
      { serverUrl := "http://127.0.0.1:5555", ns := "default", name := "sb",
        apiKey := none, isStarted := false }
      "ls" [] none "rid" (HttpOutcome.asyncTimeout "t")
      = { calls := [],
          outcome := Except.error (PyExc.runtimeError
            "Sandbox is not started. Call start() first.") }) ∧
    (Metrics.getMetrics
      { serverUrl := "http://127.0.0.1:5555", ns := "default", name := "sb",
        apiKey := none, isStarted := false }
      "rid" (HttpOutcome.asyncTimeout "t")
      = { calls := [],
          outcome := Except.error (PyExc.runtimeError
            "Sandbox is not started. Call start() first.") }) ∧
    (PythonSandbox.run
      { serverUrl := "http://127.0.0.1:5555", ns := "default", name := "sb",
        apiKey := none, isStarted := false }
      "print(1)" "rid" (HttpOutcome.asyncTimeout "t")
      = { calls := [],
          outcome := Except.error (PyExc.runtimeError
            "Sandbox is not started. Call start() first.") }) :=
  ⟨(operational_calls_gated_when_not_started _ rfl).1 _ _ _ _ _,
   (operational_calls_gated_when_not_started _ rfl).2.1 _ _,
   (operational_calls_gated_when_not_started _ rfl).2.2 _ _ _⟩

/-- C3: a `start` that receives HTTP 200 with a well-formed body (no `error`
member) whose `result` is a string containing "timed out waiting" succeeds
(`Except.ok`, no exception), marks the sandbox started, and surfaces the
condition only as the `warnings.warn` message. -/
theorem start_timed_out_waiting_soft_warning :
    ∀ (st : SandboxState) (image : Option String) (defaultImage : String)
      (memory : Int) (cpus timeout : Rat) (reqId text s : String) (body : Json),
      st.isStarted = false →
      body.member "error" = false →
      body.lookup "result" = some (Json.str s) →
      pyContains s "timed out waiting" = true →
      (BaseSandbox.start st image defaultImage memory cpus timeout reqId
          (HttpOutcome.resp 200 text body)).outcome = Except.ok () ∧
      (BaseSandbox.start st image defaultImage memory cpus timeout reqId
          (HttpOutcome.resp 200 text body)).finalStarted = true ∧
      (BaseSandbox.start st image defaultImage memory cpus timeout reqId
          (HttpOutcome.resp 200 text body)).warnings
        = ["Sandbox start warning: " ++ s] := by
  intro st image defaultImage memory cpus timeout reqId text s body
    hst herr hres hsub
  refine ⟨?_, ?_, ?_⟩ <;>
    simp [BaseSandbox.start, Json.getD, hst, herr, hres, hsub]

/-- Witness for C3 at the spec's own example response. -/
theorem start_timed_out_waiting_soft_warning_witness :
    (BaseSandbox.start
      { serverUrl := "http://127.0.0.1:5555", ns := "default", name := "sb",
        apiKey := none, isStarted := false }
      none "microsandbox/python" 512 1 180 "rid"
      (HttpOutcome.resp 200 ""
        (Json.obj [("jsonrpc", Json.str "2.0"),
                   ("result",
                    Json.str "timed out waiting for sandbox to be ready"),
                   ("id", Json.str "rid")]))).outcome = Except.ok () ∧
    (BaseSandbox.start
      { serverUrl := "http://127.0.0.1:5555", ns := "default", name := "sb",
        apiKey := none, isStarted := false }
      none "microsandbox/python" 512 1 180 "rid"
      (HttpOutcome.resp 200 ""
        (Json.obj [("jsonrpc", Json.str "2.0"),
                   ("result",
                    Json.str "timed out waiting for sandbox to be ready"),
                   ("id", Json.str "rid")]))).finalStarted = true ∧
    (BaseSandbox.start
      { serverUrl := "http://127.0.0.1:5555", ns := "default", name := "sb",
        apiKey := none, isStarted := false }
      none "microsandbox/python" 512 1 180 "rid"
      (HttpOutcome.resp 200 ""
        (Json.obj [("jsonrpc", Json.str "2.0"),
                   ("result",
                    Json.str "timed out waiting for sandbox to be ready"),
                   ("id", Json.str "rid")]))).warnings
      = ["Sandbox start warning: timed out waiting for sandbox to be ready"] :=
  start_timed_out_waiting_soft_warning _ _ _ _ _ _ _ _ _ _ rfl rfl rfl rfl

/-- C4: lifecycle state is updated only on the success path.  A failing
`start` from `NotStarted` leaves the flag `false` (every failing branch raises
before `self._is_started = True`), and a failing `stop` from `Started` leaves
the flag `true`. -/
theorem lifecycle_state_unchanged_on_failure :
    (∀ (st : SandboxState) (image : Option String) (defaultImage : String)
       (memory : Int) (cpus timeout : Rat) (reqId : String)
       (net : HttpOutcome) (e : PyExc),
       st.isStarted = false →
       (BaseSandbox.start st image defaultImage memory cpus timeout reqId
           net).outcome = Except.error e →
       (BaseSandbox.start st image defaultImage memory cpus timeout reqId
           net).finalStarted = false) ∧
    (∀ (st : SandboxState) (reqId : String) (net : HttpOutcome) (e : PyExc),
       st.isStarted = true →
       (BaseSandbox.stop st reqId net).outcome = Except.error e →
       (BaseSandbox.stop st reqId net).finalStarted = true) := by
  constructor
  · intro st image defaultImage memory cpus timeout reqId net e hst hout
    cases net with
    | resp status text body =>
      by_cases h1 : status = 200
      · by_cases h2 : body.member "error" = true
        · simp [BaseSandbox.start, hst, h1, h2]
        · simp [BaseSandbox.start, hst, h1, h2] at hout
      · simp [BaseSandbox.start, hst, h1]
    | clientErr isTmo msg =>
      cases isTmo <;> simp [BaseSandbox.start, hst]
    | asyncTimeout msg =>
      simp [BaseSandbox.start, hst]
  · intro st reqId net e hst hout
    cases net with
    | resp status text body =>
      by_cases h1 : status = 200
      · by_cases h2 : body.member "error" = true
        · simp [BaseSandbox.stop, hst, h1, h2]
        · simp [BaseSandbox.stop, hst, h1, h2] at hout
      · simp [BaseSandbox.stop, hst, h1]
    | clientErr isTmo msg =>
      simp [BaseSandbox.stop, hst]
    | asyncTimeout msg =>
      simp [BaseSandbox.stop, hst]

/-- Witness for C4: a 500 response to `start` leaves the flag `false`, a 500
response to `stop` leaves it `true`. -/
theorem lifecycle_state_unchanged_on_failure_witness :
    (BaseSandbox.start
      { serverUrl := "http://127.0.0.1:5555", ns := "default", name := "sb",
        apiKey := none, isStarted := false }
      none "microsandbox/python" 512 1 180 "rid"
      (HttpOutcome.resp 500 "boom" (Json.obj []))).finalStarted = false ∧
    (BaseSandbox.stop
      { serverUrl := "http://127.0.0.1:5555", ns := "default", name := "sb",
        apiKey := none, isStarted := true }
      "rid" (HttpOutcome.resp 500 "boom" (Json.obj []))).finalStarted = true :=
  ⟨lifecycle_state_unchanged_on_failure.1 _ _ _ _ _ _ _ _
      (PyExc.runtimeError "Failed to start sandbox: boom") rfl rfl,
   lifecycle_state_unchanged_on_failure.2 _ _ _
      (PyExc.runtimeError "Failed to stop sandbox: boom") rfl rfl⟩

/-- C5 (evaluation at the failing input): in a scoped `create` session whose
body completes normally, a `stop` failure during teardown (HTTP 500 on the
stop RPC) propagates out of the `finally` block before `session.close()` runs:
`stop` is called but the transport session is NOT released, contradicting the
spec's teardown requirement. -/
theorem create_stop_failure_skips_session_close :
    (BaseSandbox.create "http://127.0.0.1:5555" "default" "sb" none
        "microsandbox/python" 512 1 180 "rid1" "rid2"
        (HttpOutcome.resp 200 ""
          (Json.obj [("result", Json.str "sandbox started")]))
        (Except.ok ())
        (HttpOutcome.resp 500 "boom" (Json.obj []))).stopCalled = true ∧
    (BaseSandbox.create "http://127.0.0.1:5555" "default" "sb" none
        "microsandbox/python" 512 1 180 "rid1" "rid2"
        (HttpOutcome.resp 200 ""
          (Json.obj [("result", Json.str "sandbox started")]))
        (Except.ok ())
        (HttpOutcome.resp 500 "boom" (Json.obj []))).sessionClosed = false ∧
    (BaseSandbox.create "http://127.0.0.1:5555" "default" "sb" none
        "microsandbox/python" 512 1 180 "rid1" "rid2"
        (HttpOutcome.resp 200 ""
          (Json.obj [("result", Json.str "sandbox started")]))
        (Except.ok ())
        (HttpOutcome.resp 500 "boom" (Json.obj []))).outcome
      = Except.error (PyExc.runtimeError "Failed to stop sandbox: boom") :=
  ⟨rfl, rfl, rfl⟩

/-- C6: when the client-side `ClientTimeout` budget (server timeout + 30s, as
recorded on the issued call) elapses, `start` fails with `timeoutError` — the
escaping `asyncio.TimeoutError`, an alias of builtin `TimeoutError` on
CPython ≥ 3.11 — and a caught `aiohttp` timeout subclass is converted to the
crafted `TimeoutError` as well, while other transport failures yield the
communication `runtimeError`; the two exception kinds are distinct, so callers
can tell them apart. -/
theorem start_client_timeout_distinct_error :
    ∀ (st : SandboxState) (image : Option String) (defaultImage : String)
      (memory : Int) (cpus timeout : Rat) (reqId msg : String),
      st.isStarted = false →
      ((BaseSandbox.start st image defaultImage memory cpus timeout reqId
          (HttpOutcome.asyncTimeout msg)).calls.map RpcCall.timeoutBudget
        = [some (timeout + 30)]) ∧
      ((BaseSandbox.start st image defaultImage memory cpus timeout reqId
          (HttpOutcome.asyncTimeout msg)).outcome
        = Except.error (PyExc.timeoutError msg)) ∧
      ((BaseSandbox.start st image defaultImage memory cpus timeout reqId
          (HttpOutcome.clientErr true msg)).outcome
        = Except.error (PyExc.timeoutError
            ("Timed out waiting for sandbox to start after "
              ++ toString timeout ++ " seconds"))) ∧
      ((BaseSandbox.start st image defaultImage memory cpus timeout reqId
          (HttpOutcome.clientErr false msg)).outcome
        = Except.error (PyExc.runtimeError
            ("Failed to communicate with Microsandbox server: " ++ msg))) ∧
      (∀ (a b : String), PyExc.timeoutError a ≠ PyExc.runtimeError b) := by
  intro st image defaultImage memory cpus timeout reqId msg hst
  refine ⟨?_, ?_, ?_, ?_, ?_⟩ <;>
    simp [BaseSandbox.start, hst]

/-- Witness for C6 at concrete inputs. -/
theorem start_client_timeout_distinct_error_witness :
    (BaseSandbox.start
      { serverUrl := "http://127.0.0.1:5555", ns := "default", name := "sb",
        apiKey := none, isStarted := false }
      none "microsandbox/python" 512 1 180 "rid"
      (HttpOutcome.asyncTimeout "budget elapsed")).calls.map
        RpcCall.timeoutBudget = [some (180 + 30)] ∧
    (BaseSandbox.start
      { serverUrl := "http://127.0.0.1:5555", ns := "default", name := "sb",
        apiKey := none, isStarted := false }
      none "microsandbox/python" 512 1 180 "rid"
      (HttpOutcome.asyncTimeout "budget elapsed")).outcome
      = Except.error (PyExc.timeoutError "budget elapsed") :=
  ⟨(start_client_timeout_distinct_error _ _ _ _ _ _ _ _ rfl).1,
   (start_client_timeout_distinct_error _ _ _ _ _ _ _ _ rfl).2.1⟩

/-- An empty JSON object has no members. -/
theorem Json.lookup_obj_nil (key : String) : (Json.obj []).lookup key = none :=
  rfl

/-- C7 counterexample: a 2xx response whose body `{}` has neither `result` nor
`error` does NOT make the call fail — `Command.run` succeeds, handing
`CommandExecution` the default `{}` from `response_data.get("result", {})`. -/
theorem missing_result_not_failing_cex :
    (Command.run
      { serverUrl := "http://127.0.0.1:5555", ns := "default", name := "sb",
        apiKey := none, isStarted := true }
      "echo" [] none "rid" (HttpOutcome.resp 200 "" (Json.obj []))).outcome
      = Except.ok (Json.obj []) := rfl

/-- C7 amended: on a 2xx response whose body has neither a `result` nor an
`error` member, every RPC method silently substitutes a default for `result`
and completes successfully — `start` defaults to `""` (no warning, sandbox
marked started), `stop` succeeds, and command run / metrics fetch / code run
return the default `{}` — none of them fails. -/
theorem missing_result_silently_defaults :
    ∀ (st : SandboxState) (body : Json) (image : Option String)
      (defaultImage text code command reqId : String)
      (memory : Int) (cpus timeout : Rat),
      body.member "error" = false →
      body.lookup "result" = none →
      ((BaseSandbox.start { st with isStarted := false } image defaultImage
          memory cpus timeout reqId (HttpOutcome.resp 200 text body)).outcome
          = Except.ok () ∧
       (BaseSandbox.start { st with isStarted := false } image defaultImage
          memory cpus timeout reqId (HttpOutcome.resp 200 text body)).warnings
          = [] ∧
       (BaseSandbox.start { st with isStarted := false } image defaultImage
          memory cpus timeout reqId
          (HttpOutcome.resp 200 text body)).finalStarted = true) ∧
      ((BaseSandbox.stop { st with isStarted := true } reqId
          (HttpOutcome.resp 200 text body)).outcome = Except.ok ()) ∧
      ((Command.run { st with isStarted := true } command [] none reqId
          (HttpOutcome.resp 200 text body)).outcome
          = Except.ok (Json.obj [])) ∧
      ((Metrics.getMetrics { st with isStarted := true } reqId
          (HttpOutcome.resp 200 text body)).outcome
          = Except.ok (Json.obj [])) ∧
      ((PythonSandbox.run { st with isStarted := true } code reqId
          (HttpOutcome.resp 200 text body)).outcome
          = Except.ok (Json.obj [])) := by
  intro st body image defaultImage text code command reqId memory cpus timeout
    herr hres
  refine ⟨⟨?_, ?_, ?_⟩, ?_, ?_, ?_, ?_⟩ <;>
    simp [BaseSandbox.start, BaseSandbox.stop, Command.run,
      Metrics.getMetrics, PythonSandbox.run, sandboxesOf, Json.getD,
      Json.lookup_obj_nil, herr, hres, pyContains, charsHave, charsLead]

/-- Witness for C7's amended statement at the body `{}`. -/
theorem missing_result_silently_defaults_witness :
    ((BaseSandbox.start
      { serverUrl := "http://127.0.0.1:5555", ns := "default", name := "sb",
        apiKey := none, isStarted := false }
      none "microsandbox/python" 512 1 180 "rid"
      (HttpOutcome.resp 200 "" (Json.obj []))).outcome = Except.ok ()) ∧
    ((Metrics.getMetrics
      { serverUrl := "http://127.0.0.1:5555", ns := "default", name := "sb",
        apiKey := none, isStarted := true }
      "rid" (HttpOutcome.resp 200 "" (Json.obj []))).outcome
      = Except.ok (Json.obj [])) :=
  ⟨(missing_result_silently_defaults
      { serverUrl := "http://127.0.0.1:5555", ns := "default", name := "sb",
        apiKey := none, isStarted := false }
      (Json.obj []) none "microsandbox/python" "" "" "" "rid" 512 1 180
      rfl rfl).1.1,
   (missing_result_silently_defaults
      { serverUrl := "http://127.0.0.1:5555", ns := "default", name := "sb",
        apiKey := none, isStarted := true }
      (Json.obj []) none "microsandbox/python" "" "" "" "rid" 512 1 180
      rfl rfl).2.2.2.1⟩

/-- C8 counterexample: the metrics fetch does not select by sandbox name.
With own name "mysandbox" and a server list whose first entry is named
"other", `_get_metrics` returns the "other" entry (`sandboxes[0]`), whose
`name` field differs from the sandbox's own name. -/
theorem metrics_first_entry_not_own_name_cex :
    (Metrics.getMetrics
        { serverUrl := "http://127.0.0.1:5555", ns := "default",
          name := "mysandbox", apiKey := none, isStarted := true }
        "rid"
        (HttpOutcome.resp 200 ""
          (Json.obj [("result", Json.obj [("sandboxes", Json.arr
            [Json.obj [("name", Json.str "other")],
             Json.obj [("name", Json.str "mysandbox")]])])]))).outcome
      = Except.ok (Json.obj [("name", Json.str "other")]) ∧
    (Json.obj [("name", Json.str "other")]).lookup "name"
      ≠ some (Json.str "mysandbox") :=
  ⟨rfl, by simp [Json.lookup, List.lookup]⟩

/-- C8 amended: a successful metrics fetch returns the FIRST entry of the
server's `result.sandboxes` list, whatever its `name` (the code assumes the
server returns only the sandbox's own entry); an empty `sandboxes` list yields
the empty snapshot `{}` rather than failing. -/
theorem metrics_selects_first_entry :
    ∀ (st : SandboxState) (reqId text : String) (body result x : Json)
      (rest : List Json),
      st.isStarted = true →
      body.member "error" = false →
      body.lookup "result" = some result →
      (result.lookup "sandboxes" = some (Json.arr (x :: rest)) →
        (Metrics.getMetrics st reqId (HttpOutcome.resp 200 text body)).outcome
          = Except.ok x) ∧
      (result.lookup "sandboxes" = some (Json.arr []) →
        (Metrics.getMetrics st reqId (HttpOutcome.resp 200 text body)).outcome
          = Except.ok (Json.obj [])) := by
  intro st reqId text body result x rest hst herr hres
  constructor
  · intro hsb
    simp [Metrics.getMetrics, sandboxesOf, Json.getD, hst, herr, hres, hsb]
  · intro hsb
    simp [Metrics.getMetrics, sandboxesOf, Json.getD, hst, herr, hres, hsb]

/-- Witness for C8's amended statement: a one-entry list yields that entry, an
empty list yields `{}`. -/
theorem metrics_selects_first_entry_witness :
    ((Metrics.getMetrics
        { serverUrl := "http://127.0.0.1:5555", ns := "default",
          name := "sb", apiKey := none, isStarted := true }
        "rid"
        (HttpOutcome.resp 200 ""
          (Json.obj [("result", Json.obj [("sandboxes", Json.arr
            [Json.obj [("name", Json.str "sb")]])])]))).outcome
      = Except.ok (Json.obj [("name", Json.str "sb")])) ∧
    ((Metrics.getMetrics
        { serverUrl := "http://127.0.0.1:5555", ns := "default",
          name := "sb", apiKey := none, isStarted := true }
        "rid"
        (HttpOutcome.resp 200 ""
          (Json.obj [("result",
            Json.obj [("sandboxes", Json.arr [])])]))).outcome
      = Except.ok (Json.obj [])) :=
  ⟨(metrics_selects_first_entry _ "rid" ""
      (Json.obj [("result", Json.obj [("sandboxes", Json.arr
        [Json.obj [("name", Json.str "sb")]])])])
      (Json.obj [("sandboxes", Json.arr [Json.obj [("name", Json.str "sb")]])])
      (Json.obj [("name", Json.str "sb")]) [] rfl rfl rfl).1 rfl,
   (metrics_selects_first_entry _ "rid" ""
      (Json.obj [("result", Json.obj [("sandboxes", Json.arr [])])])
      (Json.obj [("sandboxes", Json.arr [])])
      Json.null [] rfl rfl rfl).2 rfl⟩

/-- C9: the per-field accessors (`cpu`, `memory`, `disk` — each a
`metrics.get(<field>)` with default `None` on the fetched snapshot) preserve
the null-vs-zero distinction: a snapshot storing `0` yields `0` and a snapshot
storing JSON `null` yields `null` (Python `None`), and the two values are
distinguishable. -/
theorem metrics_null_vs_zero_distinct :
    ∀ (m : Json),
      (m.lookup "cpu_usage" = some (Json.num 0) →
        Metrics.cpuOf m = Json.num 0) ∧
      (m.lookup "cpu_usage" = some Json.null →
        Metrics.cpuOf m = Json.null) ∧
      (m.lookup "memory_usage" = some (Json.num 0) →
        Metrics.memoryOf m = Json.num 0) ∧
      (m.lookup "memory_usage" = some Json.null →
        Metrics.memoryOf m = Json.null) ∧
      (m.lookup "disk_usage" = some (Json.num 0) →
        Metrics.diskOf m = Json.num 0) ∧
      (m.lookup "disk_usage" = some Json.null →
        Metrics.diskOf m = Json.null) ∧
      Json.num 0 ≠ Json.null := by
  intro m
  refine ⟨?_, ?_, ?_, ?_, ?_, ?_, ?_⟩
  · intro h; simp [Metrics.cpuOf, h]
  · intro h; simp [Metrics.cpuOf, h]
  · intro h; simp [Metrics.memoryOf, h]
  · intro h; simp [Metrics.memoryOf, h]
  · intro h; simp [Metrics.diskOf, h]
  · intro h; simp [Metrics.diskOf, h]
  · intro h; cases h

/-- Witness for C9: a zero reading and a null reading of `cpu_usage` project
to the two distinct values. -/
theorem metrics_null_vs_zero_distinct_witness :
    Metrics.cpuOf (Json.obj [("cpu_usage", Json.num 0)]) = Json.num 0 ∧
    Metrics.cpuOf (Json.obj [("cpu_usage", Json.null)]) = Json.null :=
  ⟨(metrics_null_vs_zero_distinct (Json.obj [("cpu_usage", Json.num 0)])).1
      rfl,
   (metrics_null_vs_zero_distinct
      (Json.obj [("cpu_usage", Json.null)])).2.1 rfl⟩

/-- C10: when the server returns an empty `result.sandboxes` list, the fetch
yields the empty snapshot `{}`, and `is_running` projects
`{}.get("running", False)` = `False` — no error, no `None`. -/
theorem empty_sandboxes_is_running_false :
    ∀ (st : SandboxState) (reqId text : String) (body result : Json),
      st.isStarted = true →
      body.member "error" = false →
      body.lookup "result" = some result →
      result.lookup "sandboxes" = some (Json.arr []) →
      (Metrics.isRunning st reqId (HttpOutcome.resp 200 text body)).outcome
        = Except.ok (Json.bool false) := by
  intro st reqId text body result hst herr hres hsb
  simp [Metrics.isRunning, Metrics.getMetrics, Metrics.isRunningOf,
    sandboxesOf, Json.getD, Json.lookup_obj_nil, Except.map,
    hst, herr, hres, hsb]

/-- Witness for C10 at the spec's example response
`{"result": {"sandboxes": []}}`. -/
theorem empty_sandboxes_is_running_false_witness :
    (Metrics.isRunning
      { serverUrl := "http://127.0.0.1:5555", ns := "default", name := "sb",
        apiKey := none, isStarted := true }
      "rid"
      (HttpOutcome.resp 200 ""
        (Json.obj [("result",
          Json.obj [("sandboxes", Json.arr [])])]))).outcome
      = Except.ok (Json.bool false) :=
  empty_sandboxes_is_running_false _ "rid" ""
    (Json.obj [("result", Json.obj [("sandboxes", Json.arr [])])])
    (Json.obj [("sandboxes", Json.arr [])]) rfl rfl rfl rfl
